import Mathlib

/-!
Shallow embedding of the Smartcar-HA integration sources
(`custom_components/smartcar/sensor.py`, `custom_components/smartcar/util.py`).

Numeric sensor values are embedded as rationals (`ℚ`); string sensor values
(for instance the charging-state enum) as `String`.  The Home Assistant unit
converters (`DistanceConverter.convert`, `PressureConverter.convert`), which
are part of the host platform and not of this repository, are embedded as
exact rational unit conversions with their standard conversion factors.
-/

namespace Smartcar

/-- A cached sensor value: either a number or a string (for string enums such
as the charging state). -/
inductive Val where
  | num (q : ℚ)
  | str (s : String)
deriving DecidableEq

/-- Apply a numeric function to a numeric value, leaving strings unchanged.
Used to embed the Home Assistant unit converters, which only ever receive
numeric values in this integration. -/
def Val.mapNum (f : ℚ → ℚ) : Val → Val
  | Val.num q => Val.num (f q)
  | v => v

/-- Litres per US gallon (3.785411784 L). -/
def litersPerGallon : ℚ := 3785411784 / 1000000000

/-- Kilometres per mile (1.609344 km). -/
def kmPerMile : ℚ := 1609344 / 1000000

/-- Kilopascals per PSI (6.894757293168361 kPa). -/
def kpaPerPsi : ℚ := 6894757293168361 / 1000000000000000

/-- `DistanceConverter.convert(v, GALLONS, LITERS)`. -/
def gallonsToLiters (q : ℚ) : ℚ := q * litersPerGallon

/-- `DistanceConverter.convert(v, LITERS, GALLONS)`. -/
def litersToGallons (q : ℚ) : ℚ := q / litersPerGallon

/-- `DistanceConverter.convert(v, MILES, KILOMETERS)`. -/
def milesToKm (q : ℚ) : ℚ := q * kmPerMile

/-- `DistanceConverter.convert(v, KILOMETERS, MILES)`. -/
def kmToMiles (q : ℚ) : ℚ := q / kmPerMile

/-- `PressureConverter.convert(v, PSI, KPA)`. -/
def psiToKpa (q : ℚ) : ℚ := q * kpaPerPsi

/-- `PressureConverter.convert(v, KPA, PSI)`. -/
def kpaToPsi (q : ℚ) : ℚ := q / kpaPerPsi

/-- `sensor.py` lines 55 and 93: `lambda pct: pct and round(pct * 100)`.
Python `x and y` returns `x` when `x` is falsy (`None`, `0`, `0.0`), else `y`;
Python `round` returns an integer (embedded here back into `ℚ`).  String
inputs never occur for the descriptors carrying this cast and are embedded
as pass-through. -/
def fractionToPercent (pct : Option Val) : Option Val :=
  match pct with
  | none => none
  | some (Val.num q) => if q = 0 then some (Val.num q) else some (Val.num (round (q * 100)))
  | some v => some v

/-- `SmartcarSensorDescription` (`sensor.py` lines 33-39) together with the
inherited fields this code uses (`key`, `name`, `value_key_path`,
`value_cast`, `native_unit_of_measurement`).  `EntityDescriptionKey` values
(from `const.py`, not in the provided source) are embedded as distinct
strings; optional fields default to `none` as the Python dataclass fields
default to `None`. -/
structure SmartcarSensorDescription where
  key : String
  name : String
  /-- The dotted field path (e.g. `"battery.percentRemaining"`), embedded as
  its list of components (the splitting at dots is done by the consumer of
  the descriptor, in `entity.py`, which is not in the provided source). -/
  value_key_path : List String
  value_cast : Option (Option Val → Option Val) := none
  device_class : Option String := none
  state_class : Option String := none
  suggested_display_precision : Option Nat := none
  icon : Option String := none
  native_unit_of_measurement : Option String := none
  imperial_unit_of_measurement : Option String := none
  to_native_conversion : Option (Val → Val) := none
  from_native_conversion : Option (Val → Val) := none

/-- `sensor.py` lines 43-50. -/
def batteryCapacityDesc : SmartcarSensorDescription :=
  { key := "battery_capacity"
    name := "Battery Capacity"
    value_key_path := ["battery_nominal_capacity", "capacity", "nominal"]
    device_class := some "energy_storage"
    state_class := some "measurement"
    native_unit_of_measurement := some "kWh" }

/-- `sensor.py` lines 51-59. -/
def batteryLevelDesc : SmartcarSensorDescription :=
  { key := "battery_level"
    name := "Battery"
    value_key_path := ["battery", "percentRemaining"]
    value_cast := some fractionToPercent
    device_class := some "battery"
    state_class := some "measurement"
    native_unit_of_measurement := some "%" }

/-- `sensor.py` lines 60-65. -/
def chargingStateDesc : SmartcarSensorDescription :=
  { key := "charging_state"
    name := "Charging Status"
    value_key_path := ["charge", "state"]
    icon := some "mdi:ev-station" }

/-- `sensor.py` lines 66-73. -/
def engineOilDesc : SmartcarSensorDescription :=
  { key := "engine_oil"
    name := "Engine Oil Life"
    value_key_path := ["engine_oil", "lifeRemaining"]
    icon := some "mdi:oil-level"
    state_class := some "measurement"
    native_unit_of_measurement := some "%" }

/-- `sensor.py` lines 74-88. -/
def fuelDesc : SmartcarSensorDescription :=
  { key := "fuel"
    name := "Fuel"
    value_key_path := ["fuel", "amountRemaining"]
    icon := some "mdi:gas-station"
    state_class := some "measurement"
    native_unit_of_measurement := some "L"
    imperial_unit_of_measurement := some "gal"
    to_native_conversion := some (Val.mapNum gallonsToLiters)
    from_native_conversion := some (Val.mapNum litersToGallons) }

/-- `sensor.py` lines 89-97. -/
def fuelPercentDesc : SmartcarSensorDescription :=
  { key := "fuel_percent"
    name := "Fuel Percent"
    value_key_path := ["fuel", "percentRemaining"]
    value_cast := some fractionToPercent
    icon := some "mdi:gas-station"
    state_class := some "measurement"
    native_unit_of_measurement := some "%" }

/-- `sensor.py` lines 98-113. -/
def fuelRangeDesc : SmartcarSensorDescription :=
  { key := "fuel_range"
    name := "Fuel Range"
    value_key_path := ["fuel", "range"]
    icon := some "mdi:map-marker-distance"
    device_class := some "distance"
    state_class := some "measurement"
    native_unit_of_measurement := some "km"
    imperial_unit_of_measurement := some "mi"
    to_native_conversion := some (Val.mapNum milesToKm)
    from_native_conversion := some (Val.mapNum kmToMiles) }

/-- `sensor.py` lines 114-128. -/
def odometerDesc : SmartcarSensorDescription :=
  { key := "odometer"
    name := "Odometer"
    value_key_path := ["odometer", "distance"]
    device_class := some "distance"
    state_class := some "total_increasing"
    native_unit_of_measurement := some "km"
    imperial_unit_of_measurement := some "mi"
    to_native_conversion := some (Val.mapNum milesToKm)
    from_native_conversion := some (Val.mapNum kmToMiles) }

/-- `sensor.py` lines 129-144. -/
def rangeDesc : SmartcarSensorDescription :=
  { key := "range"
    name := "Range"
    value_key_path := ["battery", "range"]
    icon := some "mdi:map-marker-distance"
    device_class := some "distance"
    state_class := some "measurement"
    native_unit_of_measurement := some "km"
    imperial_unit_of_measurement := some "mi"
    to_native_conversion := some (Val.mapNum milesToKm)
    from_native_conversion := some (Val.mapNum kmToMiles) }

/-- `sensor.py` lines 145-160. -/
def tirePressureBackLeftDesc : SmartcarSensorDescription :=
  { key := "tire_pressure_back_left"
    name := "Tire Pressure Back Left"
    value_key_path := ["tires_pressure", "backLeft"]
    device_class := some "pressure"
    state_class := some "measurement"
    suggested_display_precision := some 1
    native_unit_of_measurement := some "kPa"
    imperial_unit_of_measurement := some "psi"
    to_native_conversion := some (Val.mapNum psiToKpa)
    from_native_conversion := some (Val.mapNum kpaToPsi) }

/-- `sensor.py` lines 161-176. -/
def tirePressureBackRightDesc : SmartcarSensorDescription :=
  { key := "tire_pressure_back_right"
    name := "Tire Pressure Back Right"
    value_key_path := ["tires_pressure", "backRight"]
    device_class := some "pressure"
    state_class := some "measurement"
    suggested_display_precision := some 1
    native_unit_of_measurement := some "kPa"
    imperial_unit_of_measurement := some "psi"
    to_native_conversion := some (Val.mapNum psiToKpa)
    from_native_conversion := some (Val.mapNum kpaToPsi) }

/-- `sensor.py` lines 177-192. -/
def tirePressureFrontLeftDesc : SmartcarSensorDescription :=
  { key := "tire_pressure_front_left"
    name := "Tire Pressure Front Left"
    value_key_path := ["tires_pressure", "frontLeft"]
    device_class := some "pressure"
    state_class := some "measurement"
    suggested_display_precision := some 1
    native_unit_of_measurement := some "kPa"
    imperial_unit_of_measurement := some "psi"
    to_native_conversion := some (Val.mapNum psiToKpa)
    from_native_conversion := some (Val.mapNum kpaToPsi) }

/-- `sensor.py` lines 193-208. -/
def tirePressureFrontRightDesc : SmartcarSensorDescription :=
  { key := "tire_pressure_front_right"
    name := "Tire Pressure Front Right"
    value_key_path := ["tires_pressure", "frontRight"]
    device_class := some "pressure"
    state_class := some "measurement"
    suggested_display_precision := some 1
    native_unit_of_measurement := some "kPa"
    imperial_unit_of_measurement := some "psi"
    to_native_conversion := some (Val.mapNum psiToKpa)
    from_native_conversion := some (Val.mapNum kpaToPsi) }

/-- `SENSOR_TYPES` (`sensor.py` lines 42-209), in source order. -/
def SENSOR_TYPES : List SmartcarSensorDescription :=
  [batteryCapacityDesc, batteryLevelDesc, chargingStateDesc, engineOilDesc,
   fuelDesc, fuelPercentDesc, fuelRangeDesc, odometerDesc, rangeDesc,
   tirePressureBackLeftDesc, tirePressureBackRightDesc,
   tirePressureFrontLeftDesc, tirePressureFrontRightDesc]

/-- `SmartcarSensor._extract_value` (`sensor.py` lines 262-273), with the raw
value (the result of `self._extract_raw_value()`) passed as an argument and
`self._use_imperial` as a flag.  Python truthiness of the conversion fields:
a function is truthy, `None` is falsy. -/
def extractValue (useImperial : Bool) (d : SmartcarSensorDescription)
    (value : Option Val) : Option Val :=
  match value with
  | none => none
  | some v =>
    match useImperial, d.from_native_conversion, d.to_native_conversion with
    | true, some f, _ => some (f v)
    | false, _, some t => some (t v)
    | _, _, _ => some v

/-- The unit selection in `SmartcarSensor.__init__` (`sensor.py` lines
249-256).  Python truthiness of `description.imperial_unit_of_measurement`
(`None` falsy, a unit string truthy; unit strings are never empty) is
embedded as `Option.isSome`. -/
def chosenUnit (useImperial : Bool) (d : SmartcarSensorDescription) : Option String :=
  if useImperial ∧ d.imperial_unit_of_measurement.isSome then
    d.imperial_unit_of_measurement
  else
    d.native_unit_of_measurement

/-- The slice of `SmartcarVehicleCoordinator` this code uses: the capability
check `is_scope_enabled` and the config-entry flag
`config_entry.data.get(CONF_USE_IMPERIAL, False)`. -/
structure SmartcarVehicleCoordinator where
  vin : String
  is_scope_enabled : String → Bool
  use_imperial_config : Bool

/-- A constructed `SmartcarSensor`: the fields set in `__init__`
(`sensor.py` lines 239-256).  `attr_native_unit_of_measurement` is computed
once here, at construction. -/
structure SmartcarSensor where
  coordinator : SmartcarVehicleCoordinator
  entity_description : SmartcarSensorDescription
  use_imperial : Bool
  attr_native_unit_of_measurement : Option String

/-- `SmartcarSensor.__init__` (`sensor.py` lines 239-256). -/
def mkSmartcarSensor (c : SmartcarVehicleCoordinator)
    (d : SmartcarSensorDescription) : SmartcarSensor :=
  { coordinator := c
    entity_description := d
    use_imperial := c.use_imperial_config
    attr_native_unit_of_measurement := chosenUnit c.use_imperial_config d }

/-- `async_setup_entry` (`sensor.py` lines 212-229): one entity per
coordinator and per descriptor of `SENSOR_TYPES` whose key passes the
coordinator's `is_scope_enabled` check. -/
def setupEntities (coordinators : List SmartcarVehicleCoordinator) :
    List SmartcarSensor :=
  coordinators.flatMap fun c =>
    (SENSOR_TYPES.filter fun d => c.is_scope_enabled d.key).map
      fun d => mkSmartcarSensor c d

/-- A cached vehicle status payload: nested named fields reachable by dotted
path, with sensor values at the leaves. -/
inductive Payload where
  | leaf (v : Val)
  | obj (fields : List (String × Payload))

mutual

/-- Modelled from the spec: resolution of a (already split) dotted field path
inside the cached payload, the lookup part of
`SmartcarEntity._extract_raw_value` (in `entity.py`, which is not in the
provided source).  "Look up `descriptor.field_path` in `cached_payload`; if
absent, return absent." -/
def resolvePath : Payload → List String → Option Val
  | Payload.leaf v, [] => some v
  | Payload.obj _, [] => none
  | Payload.leaf _, _ :: _ => none
  | Payload.obj fields, k :: ks => resolveInFields fields k ks

/-- Modelled from the spec: lookup of one path component among the named
fields of a payload object. -/
def resolveInFields : List (String × Payload) → String → List String → Option Val
  | [], _, _ => none
  | (name, p) :: rest, k, ks =>
    if name = k then resolvePath p ks else resolveInFields rest k ks

end

/-- Modelled from the spec: `SmartcarEntity._extract_raw_value` (in
`entity.py`, not in the provided source): resolve the descriptor's dotted
`value_key_path` in the cached payload, then apply the descriptor's
`value_cast` when one is set (the cast, e.g. `fractionToPercent`, receives
the possibly-absent value, as its `None`-handling in `sensor.py` lines 55
and 93 indicates). -/
def extractRawValue (d : SmartcarSensorDescription) (payload : Payload) :
    Option Val :=
  let raw := resolvePath payload d.value_key_path
  match d.value_cast with
  | none => raw
  | some cast => cast raw

/-- The full display-value pipeline `resolve_display_value` of the spec:
raw extraction (modelled from the spec) followed by
`SmartcarSensor._extract_value` (`sensor.py` lines 262-273). -/
def resolveDisplayValue (useImperial : Bool) (d : SmartcarSensorDescription)
    (payload : Payload) : Option Val :=
  extractValue useImperial d (extractRawValue d payload)

/-- Python `str.lower()`, embedded over the string's character list
(`Char.toLower` character by character, as for the ASCII vehicle keys the
source handles). -/
def pyLower (s : String) : String := String.mk (s.data.map Char.toLower)

/-- Python `sep.join(parts)`, by structural recursion. -/
def pyJoin (sep : String) : List String → String
  | [] => ""
  | [x] => x
  | x :: y :: rest => x ++ sep ++ pyJoin sep (y :: rest)

/-- `unique_id_from_entry_data` (`util.py` lines 5-6):
`" ".join(sorted(data["vehicles"].keys())).lower()`.  The mapping
`data["vehicles"]` is embedded by its key list in insertion order; Python
`sorted` on strings is lexicographic by code point, matching `String` order. -/
def unique_id_from_entry_data (vehicleKeys : List String) : String :=
  pyLower (pyJoin " " (vehicleKeys.insertionSort (fun a b => a ≤ b)))

lemma gallonsToLiters_litersToGallons (q : ℚ) :
    gallonsToLiters (litersToGallons q) = q := by
  unfold gallonsToLiters litersToGallons litersPerGallon
  rw [div_mul_cancel₀]
  norm_num

lemma litersToGallons_gallonsToLiters (q : ℚ) :
    litersToGallons (gallonsToLiters q) = q := by
  unfold gallonsToLiters litersToGallons litersPerGallon
  rw [mul_div_cancel_right₀]
  norm_num

lemma milesToKm_kmToMiles (q : ℚ) : milesToKm (kmToMiles q) = q := by
  unfold milesToKm kmToMiles kmPerMile
  rw [div_mul_cancel₀]
  norm_num

lemma kmToMiles_milesToKm (q : ℚ) : kmToMiles (milesToKm q) = q := by
  unfold milesToKm kmToMiles kmPerMile
  rw [mul_div_cancel_right₀]
  norm_num

lemma psiToKpa_kpaToPsi (q : ℚ) : psiToKpa (kpaToPsi q) = q := by
  unfold psiToKpa kpaToPsi kpaPerPsi
  rw [div_mul_cancel₀]
  norm_num

lemma kpaToPsi_psiToKpa (q : ℚ) : kpaToPsi (psiToKpa q) = q := by
  unfold psiToKpa kpaToPsi kpaPerPsi
  rw [mul_div_cancel_right₀]
  norm_num

/-- Claim C1: for every descriptor and non-absent cached value,
`_extract_value` applies `from_native_conversion` exactly when the imperial
preference is true and that conversion is defined, applies
`to_native_conversion` exactly when the imperial preference is false and
that conversion is defined, and otherwise returns the value unchanged. -/
theorem extract_value_conversion_cases (d : SmartcarSensorDescription) (v : Val) :
    (∀ f, d.from_native_conversion = some f →
      extractValue true d (some v) = some (f v)) ∧
    (d.from_native_conversion = none →
      extractValue true d (some v) = some v) ∧
    (∀ t, d.to_native_conversion = some t →
      extractValue false d (some v) = some (t v)) ∧
    (d.to_native_conversion = none →
      extractValue false d (some v) = some v) := by
  refine ⟨?_, ?_, ?_, ?_⟩
  · intro f hf
    simp [extractValue, hf]
  · intro hf
    cases ht : d.to_native_conversion <;> simp [extractValue, hf, ht]
  · intro t ht
    cases hf : d.from_native_conversion <;> simp [extractValue, hf, ht]
  · intro ht
    cases hf : d.from_native_conversion <;> simp [extractValue, hf, ht]

/-- Witness for `extract_value_conversion_cases`: all four cases at concrete
descriptors and values. -/
theorem extract_value_conversion_cases_witness :
    extractValue true fuelDesc (some (Val.num 2)) =
      some (Val.num (litersToGallons 2)) ∧
    extractValue true chargingStateDesc (some (Val.str "CHARGING")) =
      some (Val.str "CHARGING") ∧
    extractValue false fuelDesc (some (Val.num 2)) =
      some (Val.num (gallonsToLiters 2)) ∧
    extractValue false chargingStateDesc (some (Val.str "CHARGING")) =
      some (Val.str "CHARGING") :=
  ⟨(extract_value_conversion_cases fuelDesc (Val.num 2)).1 _ rfl,
   (extract_value_conversion_cases chargingStateDesc (Val.str "CHARGING")).2.1 rfl,
   (extract_value_conversion_cases fuelDesc (Val.num 2)).2.2.1 _ rfl,
   (extract_value_conversion_cases chargingStateDesc (Val.str "CHARGING")).2.2.2 rfl⟩

/-- Counterexample to claim C2: with imperial display requested on the back
left tire pressure descriptor and cached value 100 (kPa), the code does not
apply the imperial-to-native (PSI to kPa) conversion. -/
theorem extract_value_direction_counterexample :
    extractValue true tirePressureBackLeftDesc (some (Val.num 100)) ≠
      some (Val.mapNum psiToKpa (Val.num 100)) := by
  have h1 : extractValue true tirePressureBackLeftDesc (some (Val.num 100)) =
      some (Val.num (kpaToPsi 100)) := rfl
  have h2 : Val.mapNum psiToKpa (Val.num 100) = Val.num (psiToKpa 100) := rfl
  rw [h1, h2]
  simp only [ne_eq, Option.some.injEq, Val.num.injEq]
  norm_num [kpaToPsi, psiToKpa, kpaPerPsi]

/-- Claim C2 as amended: when imperial display is requested the
native-to-imperial (`from_native_conversion`) conversion is applied (when
defined), and when metric display is requested the imperial-to-native
(`to_native_conversion`) conversion is applied (when defined). -/
theorem extract_value_direction_amended (d : SmartcarSensorDescription) (v : Val) :
    (∀ f, d.from_native_conversion = some f →
      extractValue true d (some v) = some (f v)) ∧
    (∀ t, d.to_native_conversion = some t →
      extractValue false d (some v) = some (t v)) := by
  refine ⟨?_, ?_⟩
  · intro f hf
    simp [extractValue, hf]
  · intro t ht
    cases hf : d.from_native_conversion <;> simp [extractValue, hf, ht]

/-- Witness for `extract_value_direction_amended` at the back left tire
pressure descriptor. -/
theorem extract_value_direction_amended_witness :
    extractValue true tirePressureBackLeftDesc (some (Val.num 100)) =
      some (Val.num (kpaToPsi 100)) ∧
    extractValue false tirePressureBackLeftDesc (some (Val.num 100)) =
      some (Val.num (psiToKpa 100)) :=
  ⟨(extract_value_direction_amended tirePressureBackLeftDesc (Val.num 100)).1 _ rfl,
   (extract_value_direction_amended tirePressureBackLeftDesc (Val.num 100)).2 _ rfl⟩

/-- Claim C3: for every descriptor of `SENSOR_TYPES`, when the requested
field path is absent from the cached payload the display-value extraction
returns absent (`none`); absence is not surfaced as an error (the embedding
is a total function into `Option`). -/
theorem absent_path_resolves_absent (d : SmartcarSensorDescription)
    (hd : d ∈ SENSOR_TYPES) (b : Bool) (p : Payload)
    (h : resolvePath p d.value_key_path = none) :
    resolveDisplayValue b d p = none := by
  simp only [SENSOR_TYPES, List.mem_cons, List.not_mem_nil, or_false] at hd
  rcases hd with rfl|rfl|rfl|rfl|rfl|rfl|rfl|rfl|rfl|rfl|rfl|rfl|rfl <;>
    simp_all [resolveDisplayValue, extractRawValue, extractValue, fractionToPercent,
      batteryCapacityDesc, batteryLevelDesc, chargingStateDesc, engineOilDesc,
      fuelDesc, fuelPercentDesc, fuelRangeDesc, odometerDesc, rangeDesc,
      tirePressureBackLeftDesc, tirePressureBackRightDesc,
      tirePressureFrontLeftDesc, tirePressureFrontRightDesc]

/-- Witness for `absent_path_resolves_absent`: the empty payload object has
no `charge.state` path, and the charging-state sensor resolves to absent. -/
theorem absent_path_resolves_absent_witness :
    resolveDisplayValue false chargingStateDesc (Payload.obj []) = none :=
  absent_path_resolves_absent chargingStateDesc
    (List.Mem.tail _ (List.Mem.tail _ (List.Mem.head _))) false (Payload.obj []) rfl

/-- Claim C4: every descriptor of `SENSOR_TYPES` defining both conversions
has them mutually inverse on positive numeric values (round-trip law; exact
over rationals, hence within any floating-point tolerance). -/
theorem conversion_round_trip (d : SmartcarSensorDescription)
    (hd : d ∈ SENSOR_TYPES) (f t : Val → Val)
    (hf : d.from_native_conversion = some f)
    (ht : d.to_native_conversion = some t) (q : ℚ) (_hq : 0 < q) :
    f (t (Val.num q)) = Val.num q ∧ t (f (Val.num q)) = Val.num q := by
  simp only [SENSOR_TYPES, List.mem_cons, List.not_mem_nil, or_false] at hd
  rcases hd with rfl|rfl|rfl|rfl|rfl|rfl|rfl|rfl|rfl|rfl|rfl|rfl|rfl <;>
    simp only [batteryCapacityDesc, batteryLevelDesc, chargingStateDesc, engineOilDesc,
      fuelDesc, fuelPercentDesc, fuelRangeDesc, odometerDesc, rangeDesc,
      tirePressureBackLeftDesc, tirePressureBackRightDesc,
      tirePressureFrontLeftDesc, tirePressureFrontRightDesc,
      Option.some.injEq, reduceCtorEq] at hf ht
  all_goals subst hf
  all_goals subst ht
  all_goals refine ⟨?_, ?_⟩ <;>
    simp [Val.mapNum, litersToGallons_gallonsToLiters, gallonsToLiters_litersToGallons,
      kmToMiles_milesToKm, milesToKm_kmToMiles, kpaToPsi_psiToKpa, psiToKpa_kpaToPsi]

/-- Witness for `conversion_round_trip` at the fuel descriptor and value
100. -/
theorem conversion_round_trip_witness :
    Val.mapNum litersToGallons (Val.mapNum gallonsToLiters (Val.num 100)) =
      Val.num 100 ∧
    Val.mapNum gallonsToLiters (Val.mapNum litersToGallons (Val.num 100)) =
      Val.num 100 :=
  conversion_round_trip fuelDesc
    (List.Mem.tail _ (List.Mem.tail _ (List.Mem.tail _ (List.Mem.tail _ (List.Mem.head _)))))
    _ _ rfl rfl 100 (by norm_num)

/-- Counterexample to claim C5: the key lists `["B", "a"]` and `["b", "a"]`
are equal as sets up to character case, yet `unique_id_from_entry_data`
returns different strings (sorting happens before lowercasing, and case
changes the sort order). -/
theorem unique_id_case_counterexample :
    (List.map pyLower ["B", "a"]).Perm (List.map pyLower ["b", "a"]) ∧
    unique_id_from_entry_data ["B", "a"] ≠ unique_id_from_entry_data ["b", "a"] := by
  have hBa : ("B" : String) ≤ "a" := by
    rw [String.le_iff_toList_le]
    decide
  have hba : ¬ ("b" : String) ≤ "a" := by
    rw [String.le_iff_toList_le]
    decide
  have s1 : List.insertionSort (fun a b => a ≤ b) ["B", "a"] = ["B", "a"] := by
    simp [List.insertionSort, List.orderedInsert, hBa]
  have s2 : List.insertionSort (fun a b => a ≤ b) ["b", "a"] = ["a", "b"] := by
    simp [List.insertionSort, List.orderedInsert, hba]
  refine ⟨by decide, ?_⟩
  rw [unique_id_from_entry_data, unique_id_from_entry_data, s1, s2]
  decide

/-- Claim C5 as amended: `unique_id_from_entry_data` is invariant under
reordering of the vehicle-record keys (equal key multisets give equal
results), and the result is lowercased; keys differing only in case may
still produce different results because sorting precedes lowercasing. -/
theorem unique_id_perm_invariant (l₁ l₂ : List String) (h : l₁.Perm l₂) :
    unique_id_from_entry_data l₁ = unique_id_from_entry_data l₂ := by
  unfold unique_id_from_entry_data
  have hs : l₁.insertionSort (fun a b => a ≤ b) = l₂.insertionSort (fun a b => a ≤ b) :=
    List.eq_of_perm_of_sorted
      ((List.perm_insertionSort _ l₁).trans (h.trans (List.perm_insertionSort _ l₂).symm))
      (List.sorted_insertionSort _ l₁) (List.sorted_insertionSort _ l₂)
  rw [hs]

/-- Witness for `unique_id_perm_invariant` on a two-key mapping in both
insertion orders. -/
theorem unique_id_perm_invariant_witness :
    unique_id_from_entry_data ["VIN2", "VIN1"] = unique_id_from_entry_data ["VIN1", "VIN2"] :=
  unique_id_perm_invariant _ _ (by decide)

/-- Claim C6: the battery-level and fuel-percent descriptors carry the
fraction-to-percentage cast; it maps 0.42 to 42 and absent to absent. -/
theorem fraction_to_percent_examples :
    batteryLevelDesc.value_cast = some fractionToPercent ∧
    fuelPercentDesc.value_cast = some fractionToPercent ∧
    fractionToPercent (some (Val.num (42 / 100))) = some (Val.num 42) ∧
    fractionToPercent none = none := by
  refine ⟨rfl, rfl, ?_, rfl⟩
  have h0 : ((42 : ℚ) / 100) ≠ 0 := by norm_num
  simp only [fractionToPercent, h0, if_false, Option.some.injEq, Val.num.injEq]
  norm_num

/-- Claim C7: a descriptor with neither conversion defined passes the cached
value through unchanged under both values of the imperial flag. -/
theorem no_conversion_pass_through (d : SmartcarSensorDescription)
    (hto : d.to_native_conversion = none) (hfrom : d.from_native_conversion = none)
    (b : Bool) (value : Option Val) :
    extractValue b d value = value := by
  cases value with
  | none => rfl
  | some v => cases b <;> simp [extractValue, hto, hfrom]

/-- Witness for `no_conversion_pass_through` at the charging-state
descriptor under both flag values. -/
theorem no_conversion_pass_through_witness :
    extractValue true chargingStateDesc (some (Val.str "CHARGING")) =
      some (Val.str "CHARGING") ∧
    extractValue false chargingStateDesc (some (Val.str "CHARGING")) =
      some (Val.str "CHARGING") :=
  ⟨no_conversion_pass_through chargingStateDesc rfl rfl true _,
   no_conversion_pass_through chargingStateDesc rfl rfl false _⟩

/-- Claim C8: the unit fixed at entity construction is the descriptor's
imperial unit exactly when the imperial preference is true and an imperial
unit is defined, and the native (metric) unit in every other case. -/
theorem unit_choice (c : SmartcarVehicleCoordinator) (d : SmartcarSensorDescription) :
    (c.use_imperial_config = true → d.imperial_unit_of_measurement.isSome = true →
      (mkSmartcarSensor c d).attr_native_unit_of_measurement =
        d.imperial_unit_of_measurement) ∧
    (c.use_imperial_config = false ∨ d.imperial_unit_of_measurement = none →
      (mkSmartcarSensor c d).attr_native_unit_of_measurement =
        d.native_unit_of_measurement) := by
  constructor
  · intro hc hi
    simp [mkSmartcarSensor, chosenUnit, hc, hi]
  · rintro (hc | hi)
    · simp [mkSmartcarSensor, chosenUnit, hc]
    · simp [mkSmartcarSensor, chosenUnit, hi]

/-- Witness for `unit_choice`: the odometer entity reports miles under the
imperial preference and kilometres otherwise. -/
theorem unit_choice_witness :
    (mkSmartcarSensor ⟨"VIN1", fun _ => true, true⟩ odometerDesc).attr_native_unit_of_measurement =
      some "mi" ∧
    (mkSmartcarSensor ⟨"VIN1", fun _ => true, false⟩ odometerDesc).attr_native_unit_of_measurement =
      some "km" :=
  ⟨(unit_choice ⟨"VIN1", fun _ => true, true⟩ odometerDesc).1 rfl rfl,
   (unit_choice ⟨"VIN1", fun _ => true, false⟩ odometerDesc).2 (Or.inl rfl)⟩

/-- Claim C9: an entity is produced by platform setup exactly for the pairs
of a listed coordinator and a descriptor of `SENSOR_TYPES` whose key passes
the coordinator's `is_scope_enabled` check; no descriptor outside
`SENSOR_TYPES` produces an entity. -/
theorem setup_entities_mem (coordinators : List SmartcarVehicleCoordinator)
    (s : SmartcarSensor) :
    s ∈ setupEntities coordinators ↔
      ∃ c ∈ coordinators, ∃ d ∈ SENSOR_TYPES,
        c.is_scope_enabled d.key = true ∧ mkSmartcarSensor c d = s := by
  simp only [setupEntities, List.mem_flatMap, List.mem_map, List.mem_filter]
  constructor
  · rintro ⟨c, hc, d, ⟨hd, hscope⟩, hs⟩
    exact ⟨c, hc, d, hd, hscope, hs⟩
  · rintro ⟨c, hc, d, hd, hscope, hs⟩
    exact ⟨c, hc, d, ⟨hd, hscope⟩, hs⟩

/-- Claim C10: the fraction-to-percentage cast returns falsy inputs
unchanged (`None` to `None`, an exact 0 fraction as-is), and rounds to a
percentage only for non-falsy numeric inputs. -/
theorem fraction_to_percent_falsy (q : ℚ) (hq : q ≠ 0) :
    fractionToPercent none = none ∧
    fractionToPercent (some (Val.num 0)) = some (Val.num 0) ∧
    fractionToPercent (some (Val.num q)) = some (Val.num (round (q * 100))) := by
  refine ⟨rfl, by simp [fractionToPercent], ?_⟩
  simp [fractionToPercent, hq]

/-- Witness for `fraction_to_percent_falsy` at the non-falsy fraction 1/2. -/
theorem fraction_to_percent_falsy_witness :
    fractionToPercent none = none ∧
    fractionToPercent (some (Val.num 0)) = some (Val.num 0) ∧
    fractionToPercent (some (Val.num (1 / 2))) =
      some (Val.num (round ((1 : ℚ) / 2 * 100))) :=
  fraction_to_percent_falsy (1 / 2) (by norm_num)

end Smartcar
